import Mathlib

/-! # Chat widget: message lifecycle and feedback workflow

A shallow embedding of `src/chat_widget/chat_widget.js` (class `ChatWidget`).

The widget is a single-threaded, event-driven object.  Its state is the
object's own fields together with the parts of the page it reads and writes
(input box, send button, transcript container, notification badge, feedback
modal), the timers it has armed and the `fetch` calls it has issued that have
not settled yet.  Every method is a function on that state.  An `async` method
is split where it awaits: the part that runs synchronously up to the `await`,
and the continuation that runs when the awaited `fetch` settles.

Conventions.
* Strings are Lean strings; `trim` and `parseInt` work on the character list.
* A JavaScript number that holds a count is an `Int`; a confidence is the exact
  rational value of the IEEE double (comparison of doubles is exact).
* Clock reads (`Date.now()`, `new Date()`) and random suffixes are inputs.
* A response body of `/chat` has the shape fixed by the service contract
  (`response`, `confidence`, `category`); a body that cannot be parsed is the
  separate outcome `body = none`.
-/

namespace ChatWidgetModel

/-! ## JavaScript string helpers -/

/-- Code points removed by `String.prototype.trim` (WhiteSpace and
LineTerminator of ECMAScript). -/
def isJsWhiteSpace (c : Char) : Bool :=
  decide (c.toNat ∈ [0x09, 0x0A, 0x0B, 0x0C, 0x0D, 0x20, 0xA0, 0x1680, 0x2028, 0x2029,
    0x202F, 0x205F, 0x3000, 0xFEFF]) || (decide (0x2000 ≤ c.toNat) && decide (c.toNat ≤ 0x200A))

/-- Character-list body of `trim`: white space dropped at both ends. -/
def trimChars (cs : List Char) : List Char :=
  ((cs.dropWhile isJsWhiteSpace).reverse.dropWhile isJsWhiteSpace).reverse

/-- JavaScript `s.trim()`. -/
def jsTrim (s : String) : String := String.mk (trimChars s.data)

/-- Character-list body of `formatMessage`: every line feed becomes `<br>`. -/
def formatChars : List Char → List Char
  | [] => []
  | c :: cs => if c.toNat = 0x0A then "<br>".data ++ formatChars cs else c :: formatChars cs

/-- Source: `formatMessage(text)`, `text.replace(/\n/g, '<br>')`. -/
def formatMessage (text : String) : String := String.mk (formatChars text.data)

/-- Value of a digit character in the given radix (10 or 16), if it is one. -/
def digitValue (radix : Nat) (c : Char) : Option Nat :=
  let n := c.toNat
  let v : Option Nat :=
    if 48 ≤ n ∧ n ≤ 57 then some (n - 48)
    else if 97 ≤ n ∧ n ≤ 102 then some (n - 87)
    else if 65 ≤ n ∧ n ≤ 70 then some (n - 55)
    else none
  match v with
  | some d => if d < radix then some d else none
  | none => none

/-- The longest prefix of digits of the radix, as digit values. -/
def takeDigits (radix : Nat) : List Char → List Nat
  | [] => []
  | c :: cs =>
    match digitValue radix c with
    | some d => d :: takeDigits radix cs
    | none => []

/-- JavaScript `parseInt(s)` with no radix argument: leading white space, an
optional sign, an optional `0x`/`0X` prefix, then the longest run of digits;
`none` stands for `NaN`. -/
def jsParseInt (s : String) : Option Int :=
  let cs := s.data.dropWhile isJsWhiteSpace
  let (neg, cs) :=
    match cs with
    | c :: rest => if c = '-' then (true, rest) else if c = '+' then (false, rest) else (false, cs)
    | [] => (false, cs)
  let (radix, cs) :=
    match cs with
    | c0 :: c1 :: rest =>
      if c0 = '0' ∧ (c1 = 'x' ∨ c1 = 'X') then (16, rest) else (10, cs)
    | _ => (10, cs)
  match takeDigits radix cs with
  | [] => none
  | ds =>
    let n : Nat := ds.foldl (fun acc d => acc * radix + d) 0
    some (if neg then -(n : Int) else (n : Int))

/-! ## Data model -/

/-- The two values `currentLanguage` takes (`'en'`, `'ar'`). -/
inductive Language where
  | en
  | ar
deriving DecidableEq, Repr

/-- The string held in `currentLanguage`. -/
def Language.code : Language → String
  | .en => "en"
  | .ar => "ar"

/-- The `sender` argument of `addMessage`. -/
inductive Sender where
  | user
  | bot
deriving DecidableEq, Repr

/-- The `metadata` argument of `addMessage`; an absent property is `none`
(or `false` for a flag, which is how the code reads it). -/
structure Metadata where
  confidence : Option ℚ := none
  category : Option String := none
  messageId : Option Nat := none
  isError : Bool := false
  isSystem : Bool := false
deriving DecidableEq, Repr

/-- The like/dislike buttons rendered under a bot message. -/
structure InlineActions where
  messageId : Option Nat
  likeSelected : Bool := false
  dislikeSelected : Bool := false
deriving DecidableEq, Repr

/-- One entry of the transcript (a child of `#chat-messages`). -/
structure Message where
  text : String
  html : String
  sender : Sender
  time : Nat
  metadata : Metadata
  actions : Option InlineActions
deriving DecidableEq, Repr

/-- The object held in `pendingFeedback` while the modal is open. -/
structure PendingFeedback where
  sessionId : String
  type : Option String := none
deriving DecidableEq, Repr

/-- What a `setTimeout` callback of the widget does. -/
inductive TimerAction where
  | focusInput
  | showFeedbackModal
deriving DecidableEq, Repr

/-- An armed timer. -/
structure Timer where
  action : TimerAction
  delay : Nat
deriving DecidableEq, Repr

/-- Body of `POST /chat`. -/
structure ChatRequest where
  message : String
  language : String
  session_id : String
  user_id : String
deriving DecidableEq, Repr

/-- Body of `POST /feedback`; `comment = none` is JSON `null`. -/
structure FeedbackRequest where
  session_id : String
  feedback_type : String
  comment : Option String
deriving DecidableEq, Repr

/-- Parsed body of a `/chat` response. -/
structure ChatResponse where
  response : String
  confidence : ℚ
  category : String
deriving DecidableEq, Repr

/-- How the `fetch` of `/chat` settles: the promise rejects, or it resolves to
a response with its `ok` flag, status and body (`none`: `json()` rejects). -/
inductive ChatOutcome where
  | rejected
  | responded (ok : Bool) (status : Nat) (body : Option ChatResponse)
deriving DecidableEq, Repr

/-- How the `fetch` of `/feedback` settles. -/
inductive FeedbackOutcome where
  | rejected
  | responded (ok : Bool) (status : Nat)
deriving DecidableEq, Repr

/-- Which method awaits a `sendFeedback` call. -/
inductive FeedbackCaller where
  | submitFeedback
  | handleInlineFeedback
deriving DecidableEq, Repr

/-- A button of the feedback modal (class `feedback-btn`). -/
structure FeedbackBtn where
  dataFeedback : String
  selected : Bool := false
deriving DecidableEq, Repr

/-- The two inline buttons of a message. -/
inductive InlineButton where
  | like
  | dislike
deriving DecidableEq, Repr

/-- The `data-feedback` attribute of an inline button. -/
def InlineButton.dataFeedback : InlineButton → String
  | .like => "like"
  | .dislike => "dislike"

/-- The widget object, the page elements it touches, and its environment. -/
structure ChatWidget where
  isOpen : Bool
  currentLanguage : Language
  sessionId : String
  userId : String
  pendingFeedback : Option PendingFeedback
  apiEndpoint : String
  windowShown : Bool
  inputValue : String
  inputFocused : Bool
  placeholder : String
  direction : String
  languageToggleText : String
  welcomeText : String
  sendDisabled : Bool
  sendText : String
  transcript : List Message
  typingDisplay : String
  typingHtml : String
  modalDisplay : String
  feedbackBtns : List FeedbackBtn
  modalBeforeMessages : Bool
  feedbackComment : String
  badgeDisplay : String
  badgeText : String
  storage : Option String
  timers : List Timer
  chatRequests : List ChatRequest
  inFlightChat : List ChatRequest
  feedbackRequests : List FeedbackRequest
  inFlightFeedback : List (FeedbackRequest × FeedbackCaller)
  console : List String
deriving DecidableEq, Repr

/-! ## Constants of the source -/

/-- The literal `0.7` of `sendMessage`: the exact value of the IEEE double
nearest to seven tenths, `0x1.6666666666666p-1`. -/
def lowConfidenceThreshold : ℚ := mkRat 3152519739159347 4503599627370496

/-- The generic error string of `sendMessage`, per language. -/
def errorMessageText : Language → String
  | .ar => "عذراً، حدث خطأ. يرجى المحاولة مرة أخرى."
  | .en => "Sorry, there was an error. Please try again."

/-- The thank-you string of `submitFeedback`, per language. -/
def thankYouText : Language → String
  | .ar => "شكراً لك على ملاحظاتك!"
  | .en => "Thank you for your feedback!"

/-- The typing-indicator string of `showTypingIndicator`, per language. -/
def typingText : Language → String
  | .ar => "الذكي الاصطناعي يكتب"
  | .en => "AI is typing"

/-- The welcome strings of `updateWelcomeMessage`. -/
def welcomeMessageText : Language → String
  | .en => "Hello! I\x27m your AI assistant. How can I help you today?"
  | .ar => "مرحباً! أنا مساعدك الذكي. كيف يمكنني مساعدتك اليوم؟"

/-- The timer armed by `sendMessage` after a low-confidence answer. -/
def feedbackTimer : Timer := { action := TimerAction.showFeedbackModal, delay := 1000 }

/-- The timer armed by `toggleChat` when the window opens. -/
def focusTimer : Timer := { action := TimerAction.focusInput, delay := 300 }

namespace ChatWidget

/-! ## Methods that do not await -/

/-- Source: `generateSessionId()`; the clock and the random suffix are inputs. -/
def generateSessionId (now : Nat) (suffix : String) : String :=
  "session_" ++ toString now ++ "_" ++ suffix

/-- Source: `getUserId()` over the `chat_user_id` entry of local storage.
Returns the id and the storage afterwards. -/
def getUserId (storage : Option String) (now : Nat) (suffix : String) :
    String × Option String :=
  match storage with
  | some userId =>
    if userId = "" then
      let fresh := "anon_" ++ toString now ++ "_" ++ suffix
      (fresh, some fresh)
    else (userId, storage)
  | none =>
    let fresh := "anon_" ++ toString now ++ "_" ++ suffix
    (fresh, some fresh)

/-- Source: `setSendButtonState(enabled)`. -/
def setSendButtonState (w : ChatWidget) (enabled : Bool) : ChatWidget :=
  { w with sendDisabled := !enabled, sendText := if enabled then "Send" else "Sending..." }

/-- Source: `showTypingIndicator()`. -/
def showTypingIndicator (w : ChatWidget) : ChatWidget :=
  { w with typingDisplay := "block",
           typingHtml := typingText w.currentLanguage ++ "<span class=\"dots\">...</span>" }

/-- Source: `hideTypingIndicator()`. -/
def hideTypingIndicator (w : ChatWidget) : ChatWidget :=
  { w with typingDisplay := "none" }

/-- Source: `showNotificationBadge()`: `parseInt(badge.textContent) || 0`, plus one. -/
def showNotificationBadge (w : ChatWidget) : ChatWidget :=
  let currentCount : Int := (jsParseInt w.badgeText).getD 0
  { w with badgeDisplay := "flex", badgeText := toString (currentCount + 1) }

/-- Source: `hideNotificationBadge()`. -/
def hideNotificationBadge (w : ChatWidget) : ChatWidget :=
  { w with badgeDisplay := "none", badgeText := "1" }

/-- Source: `toggleChat()`. -/
def toggleChat (w : ChatWidget) : ChatWidget :=
  let w := { w with isOpen := !w.isOpen }
  if w.isOpen then
    let w := { w with windowShown := true }
    let w := hideNotificationBadge w
    { w with timers := w.timers ++ [focusTimer] }
  else
    { w with windowShown := false }

/-- Source: `updateLanguageDisplay()`. -/
def updateLanguageDisplay (w : ChatWidget) : ChatWidget :=
  let w := { w with languageToggleText := String.mk (w.currentLanguage.code.data.map Char.toUpper) }
  if w.currentLanguage = Language.ar then
    { w with placeholder := "اكتب رسالتك...", direction := "rtl" }
  else
    { w with placeholder := "Type your message...", direction := "ltr" }

/-- Source: `updateWelcomeMessage()`. -/
def updateWelcomeMessage (w : ChatWidget) : ChatWidget :=
  { w with welcomeText := welcomeMessageText w.currentLanguage }

/-- Source: `toggleLanguage()`. -/
def toggleLanguage (w : ChatWidget) : ChatWidget :=
  let w := { w with currentLanguage :=
    if w.currentLanguage = Language.en then Language.ar else Language.en }
  updateWelcomeMessage (updateLanguageDisplay w)

/-- Source: `addMessage(text, sender, metadata)`.  The entry is appended to the
transcript; a bot message that is not an error gets the inline buttons; the
badge is bumped when the window is closed. -/
def addMessage (w : ChatWidget) (text : String) (sender : Sender) (metadata : Metadata)
    (now : Nat) : ChatWidget :=
  let actions : Option InlineActions :=
    if sender = Sender.bot ∧ metadata.isError = false then
      some { messageId := metadata.messageId }
    else none
  let messageDiv : Message :=
    { text := text, html := formatMessage text, sender := sender, time := now,
      metadata := metadata, actions := actions }
  let w := { w with transcript := w.transcript ++ [messageDiv] }
  if w.isOpen = false then showNotificationBadge w else w

/-- Source: `showFeedbackModal()`. -/
def showFeedbackModal (w : ChatWidget) : ChatWidget :=
  { w with pendingFeedback := some { sessionId := w.sessionId }, modalDisplay := "flex" }

/-- Source: `hideFeedbackModal()`. -/
def hideFeedbackModal (w : ChatWidget) : ChatWidget :=
  { w with modalDisplay := "none",
           pendingFeedback := none,
           feedbackBtns :=
             w.feedbackBtns.map (fun (btn : FeedbackBtn) => { btn with selected := false }),
           feedbackComment := "" }

/-! ## The chat request -/

/-- Source: `callChatAPI(message)` up to its `await fetch(...)`: the request is
issued with the language, session and user of that moment. -/
def callChatAPI (w : ChatWidget) (message : String) : ChatWidget :=
  let body : ChatRequest :=
    { message := message, language := w.currentLanguage.code,
      session_id := w.sessionId, user_id := w.userId }
  { w with chatRequests := w.chatRequests ++ [body], inFlightChat := w.inFlightChat ++ [body] }

/-- Source: the rest of `callChatAPI`: a rejected fetch, a response that is
not `ok` and a body that does not parse all throw; otherwise the parsed body
is returned. -/
def callChatAPIResult : ChatOutcome → Except String ChatResponse
  | .rejected => .error "TypeError: Failed to fetch"
  | .responded false status _ => .error ("HTTP error! status: " ++ toString status)
  | .responded true _ none => .error "SyntaxError: JSON"
  | .responded true _ (some body) => .ok body

/-- Source: `sendMessage()` up to its `await`. -/
def sendMessage (w : ChatWidget) (now : Nat) : ChatWidget :=
  let message := jsTrim w.inputValue
  if message = "" then w
  else
    let w := { w with inputValue := "" }
    let w := setSendButtonState w false
    let w := addMessage w message Sender.user {} now
    let w := showTypingIndicator w
    callChatAPI w message

/-- Source: `sendMessage()` from the point where `callChatAPI` settles: the
`try` continuation, the `catch` block and the `finally` block. -/
def sendMessageResume (w : ChatWidget) (outcome : ChatOutcome) (now : Nat) : ChatWidget :=
  let w :=
    match callChatAPIResult outcome with
    | .ok response =>
      let w := hideTypingIndicator w
      let w := addMessage w response.response Sender.bot
        { confidence := some response.confidence, category := some response.category,
          messageId := some now } now
      if response.confidence < lowConfidenceThreshold then
        { w with timers := w.timers ++ [feedbackTimer] }
      else w
    | .error _ =>
      let w := { w with console := w.console ++ ["Chat API error:"] }
      let w := hideTypingIndicator w
      let errorMessage := errorMessageText w.currentLanguage
      addMessage w errorMessage Sender.bot { isError := true } now
  setSendButtonState w true

/-! ## Feedback -/

/-- Source: `sendFeedback(feedbackType, comment, messageId)` up to its
`await fetch(...)`; `caller` records which method awaits the call. -/
def sendFeedback (w : ChatWidget) (feedbackType : String) (comment : Option String)
    (caller : FeedbackCaller) : ChatWidget :=
  let body : FeedbackRequest :=
    { session_id := w.sessionId, feedback_type := feedbackType, comment := comment }
  { w with feedbackRequests := w.feedbackRequests ++ [body],
           inFlightFeedback := w.inFlightFeedback ++ [(body, caller)] }

/-- Source: the rest of `sendFeedback`: a rejected fetch is caught and logged,
the response is not inspected.  The second component is what the caller's
`await` sees: the promise of `sendFeedback` is fulfilled in every case. -/
def sendFeedbackResume (w : ChatWidget) (outcome : FeedbackOutcome) :
    ChatWidget × Except String Unit :=
  match outcome with
  | .rejected => ({ w with console := w.console ++ ["Feedback API error:"] }, .ok ())
  | .responded _ _ => (w, .ok ())

/-- First modal button carrying the given `data-feedback`, marked selected. -/
def selectFirstBtn (t : String) : List FeedbackBtn → Option (List FeedbackBtn)
  | [] => none
  | btn :: rest =>
    if btn.dataFeedback = t then some ({ btn with selected := true } :: rest)
    else (selectFirstBtn t rest).map (fun r => btn :: r)

/-- First inline button of the transcript carrying the given `data-feedback`,
marked selected. -/
def selectFirstInline (t : String) : List Message → Option (List Message)
  | [] => none
  | m :: rest =>
    match m.actions with
    | some a =>
      if t = "like" then some ({ m with actions := some { a with likeSelected := true } } :: rest)
      else if t = "dislike" then
        some ({ m with actions := some { a with dislikeSelected := true } } :: rest)
      else (selectFirstInline t rest).map (fun r => m :: r)
    | none => (selectFirstInline t rest).map (fun r => m :: r)

/-- Source: `selectFeedback(feedbackType)`; the argument is the clicked
element's `dataset.feedback` (`none`: the attribute is absent).  The last line
marks the first element of the document with that `data-feedback`; when there
is none the handler throws there, after the type was recorded.  The value is
taken to be free of quotes, backslashes and line breaks, so that the selector
string built from it denotes exactly that value. -/
def selectFeedback (w : ChatWidget) (feedbackType : Option String) : ChatWidget :=
  match w.pendingFeedback with
  | none => w
  | some pending =>
    let w : ChatWidget :=
      { w with pendingFeedback := some { pending with type := feedbackType } }
    let w : ChatWidget :=
      { w with feedbackBtns :=
          w.feedbackBtns.map (fun (btn : FeedbackBtn) => { btn with selected := false }) }
    let t := feedbackType.getD "undefined"
    if w.modalBeforeMessages then
      match selectFirstBtn t w.feedbackBtns with
      | some btns => { w with feedbackBtns := btns }
      | none =>
        match selectFirstInline t w.transcript with
        | some ms => { w with transcript := ms }
        | none => w
    else
      match selectFirstInline t w.transcript with
      | some ms => { w with transcript := ms }
      | none =>
        match selectFirstBtn t w.feedbackBtns with
        | some btns => { w with feedbackBtns := btns }
        | none => w

/-- Source: `submitFeedback()` up to its `await`. -/
def submitFeedback (w : ChatWidget) : ChatWidget :=
  match w.pendingFeedback with
  | none => w
  | some pending =>
    match pending.type with
    | none => w
    | some type =>
      if type = "" then w
      else
        let comment := jsTrim w.feedbackComment
        sendFeedback w type (some comment) FeedbackCaller.submitFeedback

/-- Source: `submitFeedback()` from the point where `sendFeedback` settles:
the rest of the `try` block, or the `catch` block when the await throws. -/
def submitFeedbackResume (w : ChatWidget) (outcome : FeedbackOutcome) (now : Nat) : ChatWidget :=
  match sendFeedbackResume w outcome with
  | (w, .ok _) =>
    let w := hideFeedbackModal w
    let thankYouMessage := thankYouText w.currentLanguage
    addMessage w thankYouMessage Sender.bot { isSystem := true } now
  | (w, .error _) =>
    { w with console := w.console ++ ["Feedback submission error:"] }

/-- The button of a message's actions marked as the only selected one. -/
def markInline (a : InlineActions) (button : InlineButton) : InlineActions :=
  match button with
  | .like => { a with likeSelected := true, dislikeSelected := false }
  | .dislike => { a with likeSelected := false, dislikeSelected := true }

/-- Source: `handleInlineFeedback(button)` for the given button of the
transcript entry at `index`. -/
def handleInlineFeedback (w : ChatWidget) (index : Nat) (button : InlineButton) : ChatWidget :=
  match w.transcript.get? index with
  | none => w
  | some m =>
    match m.actions with
    | none => w
    | some a =>
      let w := { w with transcript :=
        w.transcript.set index { m with actions := some (markInline a button) } }
      sendFeedback w button.dataFeedback none FeedbackCaller.handleInlineFeedback

/-! ## Construction and events -/

/-- What the page (not part of the sources) provides before the script runs. -/
structure Page where
  welcomeText : String
  sendText : String
  badgeText : String
  badgeDisplay : String
  feedbackBtns : List FeedbackBtn
  modalBeforeMessages : Bool
  storage : Option String
deriving DecidableEq, Repr

/-- Source: `constructor()` and `init()`. -/
def new (page : Page) (now : Nat) (suffix₁ suffix₂ : String) : ChatWidget :=
  let user := getUserId page.storage now suffix₂
  let w : ChatWidget :=
    { isOpen := false, currentLanguage := Language.en,
      sessionId := generateSessionId now suffix₁, userId := user.1,
      pendingFeedback := none, apiEndpoint := "http://localhost:8000",
      windowShown := false, inputValue := "", inputFocused := false,
      placeholder := "", direction := "", languageToggleText := "",
      welcomeText := page.welcomeText, sendDisabled := false, sendText := page.sendText,
      transcript := [], typingDisplay := "none", typingHtml := "",
      modalDisplay := "none", feedbackBtns := page.feedbackBtns,
      modalBeforeMessages := page.modalBeforeMessages, feedbackComment := "",
      badgeDisplay := page.badgeDisplay, badgeText := page.badgeText,
      storage := user.2, timers := [], chatRequests := [], inFlightChat := [],
      feedbackRequests := [], inFlightFeedback := [], console := [] }
  updateLanguageDisplay w

/-- What can happen to the widget: the user interface events wired in
`setupEventListeners` and `addMessage`, edits of the two text fields, a timer
that fires, and a `fetch` that settles. -/
inductive Event where
  | clickToggle
  | clickMinimize
  | clickLanguage
  | clickSend (now : Nat)
  | keypress (key : String) (shiftKey : Bool) (now : Nat)
  | editInput (value : String)
  | editComment (value : String)
  | clickFeedbackBtn (dataFeedback : Option String)
  | clickFeedbackSubmit
  | clickFeedbackSkip
  | clickModal (targetId : String)
  | clickInline (index : Nat) (button : InlineButton)
  | timerFires (index : Nat)
  | chatSettles (index : Nat) (outcome : ChatOutcome) (now : Nat)
  | feedbackSettles (index : Nat) (outcome : FeedbackOutcome) (now : Nat)
deriving DecidableEq, Repr

/-- One event handled to completion.  A click on the send button reaches its
listener only while the button is enabled (a disabled button dispatches no
click event); the keypress listener has no such gate. -/
def step (w : ChatWidget) : Event → ChatWidget
  | .clickToggle => toggleChat w
  | .clickMinimize => toggleChat w
  | .clickLanguage => toggleLanguage w
  | .clickSend now => if w.sendDisabled then w else sendMessage w now
  | .keypress key shiftKey now =>
    if key = "Enter" ∧ shiftKey = false then sendMessage w now else w
  | .editInput value => { w with inputValue := value }
  | .editComment value => { w with feedbackComment := value }
  | .clickFeedbackBtn dataFeedback => selectFeedback w dataFeedback
  | .clickFeedbackSubmit => submitFeedback w
  | .clickFeedbackSkip => hideFeedbackModal w
  | .clickModal targetId => if targetId = "feedback-modal" then hideFeedbackModal w else w
  | .clickInline index button => handleInlineFeedback w index button
  | .timerFires index =>
    match w.timers.get? index with
    | none => w
    | some timer =>
      let w := { w with timers := w.timers.eraseIdx index }
      match timer.action with
      | .focusInput => { w with inputFocused := true }
      | .showFeedbackModal => showFeedbackModal w
  | .chatSettles index outcome now =>
    match w.inFlightChat.get? index with
    | none => w
    | some _ =>
      sendMessageResume { w with inFlightChat := w.inFlightChat.eraseIdx index } outcome now
  | .feedbackSettles index outcome now =>
    match w.inFlightFeedback.get? index with
    | none => w
    | some (_, caller) =>
      let w := { w with inFlightFeedback := w.inFlightFeedback.eraseIdx index }
      match caller with
      | .submitFeedback => submitFeedbackResume w outcome now
      | .handleInlineFeedback => (sendFeedbackResume w outcome).1

/-- The widget after a sequence of events. -/
def run (w : ChatWidget) (events : List Event) : ChatWidget :=
  events.foldl step w

/-! ## Concrete inputs used by the scenarios -/

/-- A page with an empty, hidden badge and the two modal buttons. -/
def demoPage : Page :=
  { welcomeText := "Hello", sendText := "Send", badgeText := "", badgeDisplay := "none",
    feedbackBtns := [{ dataFeedback := "like" }, { dataFeedback := "dislike" }],
    modalBeforeMessages := false, storage := none }

/-- The widget constructed on `demoPage`. -/
def demoWidget : ChatWidget := ChatWidget.new demoPage 1000 "abc" "xyz"

/-- The double written `0.9`. -/
def double09 : ℚ := mkRat 8106479329266893 9007199254740992

/-- The double written `0.4`. -/
def double04 : ℚ := mkRat 3602879701896397 9007199254740992

/-- The mock answer of the high-confidence scenario. -/
def greetingResponse : ChatResponse :=
  { response := "Hi there", confidence := double09, category := "greeting" }

/-- The mock answer of the low-confidence scenario. -/
def unknownResponse : ChatResponse :=
  { response := "...", confidence := double04, category := "unknown" }

/-- A request is in flight and the user has typed again:
`demoWidget` after typing "hi", clicking send, and typing "again". -/
def busyWidget : ChatWidget :=
  run demoWidget [Event.editInput "hi", Event.clickSend 1, Event.editInput "again"]

/-- The feedback modal is open and no type is chosen (AwaitingSelection):
`demoWidget` after a low-confidence answer and the feedback timer. -/
def awaitingSelectionWidget : ChatWidget :=
  run demoWidget [Event.editInput "help", Event.clickSend 1,
    Event.chatSettles 0 (ChatOutcome.responded true 200 (some unknownResponse)) 5,
    Event.timerFires 0]

/-- The feedback modal is open and "like" is chosen (TypeSelected). -/
def typeSelectedWidget : ChatWidget :=
  step awaitingSelectionWidget (Event.clickFeedbackBtn (some "like"))

/-- The user message `sendMessage` appends for the trimmed text. -/
def userMessage (message : String) (now : Nat) : Message :=
  { text := message, html := formatMessage message, sender := Sender.user, time := now,
    metadata := {}, actions := none }

/-- The bot message appended by the `catch` block of `sendMessage`. -/
def errorBotMessage (language : Language) (now : Nat) : Message :=
  { text := errorMessageText language, html := formatMessage (errorMessageText language),
    sender := Sender.bot, time := now, metadata := { isError := true }, actions := none }

/-- The bot message appended for a parsed answer. -/
def answerBotMessage (response : ChatResponse) (now : Nat) : Message :=
  { text := response.response, html := formatMessage response.response, sender := Sender.bot,
    time := now,
    metadata := { confidence := some response.confidence, category := some response.category,
                  messageId := some now },
    actions := some { messageId := some now } }

/-- The system message appended by `submitFeedback` after its await. -/
def thankYouBotMessage (language : Language) (now : Nat) : Message :=
  { text := thankYouText language, html := formatMessage (thankYouText language),
    sender := Sender.bot, time := now, metadata := { isSystem := true },
    actions := some { messageId := none } }

/-- A bot answer with its inline buttons is in the transcript (entry 1):
`demoWidget` after "Hello" was sent and answered with high confidence. -/
def answeredWidget : ChatWidget :=
  run demoWidget [Event.editInput "Hello", Event.clickSend 1,
    Event.chatSettles 0 (ChatOutcome.responded true 200 (some greetingResponse)) 5]

/-- The `data-feedback` values of the modal buttons that are marked selected. -/
def selectedTypes (btns : List FeedbackBtn) : List String :=
  (btns.filter (fun btn => btn.selected)).map (fun btn => btn.dataFeedback)

/-- Two calls overlap and the first has settled: `busyWidget` after Enter in
the input (a second chat request) and the answer to the first request. -/
def overlappedWidget : ChatWidget :=
  run busyWidget [Event.keypress "Enter" false 2,
    Event.chatSettles 0 (ChatOutcome.responded true 200 (some greetingResponse)) 3]

/-! ## Localized display -/

/-- The placeholder `updateLanguageDisplay` writes for a language. -/
def placeholderText : Language → String
  | .ar => "اكتب رسالتك..."
  | .en => "Type your message..."

/-- The text direction `updateLanguageDisplay` writes for a language. -/
def directionText : Language → String
  | .ar => "rtl"
  | .en => "ltr"

/-- The input box shows the placeholder and direction of `currentLanguage`. -/
def languageDisplayed (w : ChatWidget) : Bool :=
  decide (w.placeholder = placeholderText w.currentLanguage) &&
    decide (w.direction = directionText w.currentLanguage)

/-- The welcome element shows the welcome string of `currentLanguage`. -/
def welcomeLocalized (w : ChatWidget) : Bool :=
  decide (w.welcomeText = welcomeMessageText w.currentLanguage)

/-! ## Basic facts about the methods -/

theorem trimChars_of_all_white (cs : List Char) (h : ∀ c ∈ cs, isJsWhiteSpace c = true) :
    trimChars cs = [] := by
  have h0 : cs.dropWhile isJsWhiteSpace = [] := List.dropWhile_eq_nil_iff.mpr h
  simp [trimChars, h0]

theorem jsTrim_of_all_white (s : String) (h : ∀ c ∈ s.data, isJsWhiteSpace c = true) :
    jsTrim s = "" := by
  simp [jsTrim, trimChars_of_all_white s.data h]

theorem addMessage_transcript (w : ChatWidget) (text : String) (sender : Sender)
    (metadata : Metadata) (now : Nat) :
    (addMessage w text sender metadata now).transcript =
      w.transcript ++
        [{ text := text, html := formatMessage text, sender := sender, time := now,
           metadata := metadata,
           actions := if sender = Sender.bot ∧ metadata.isError = false then
             some { messageId := metadata.messageId } else none }] := by
  unfold addMessage
  by_cases h : w.isOpen = false <;> simp [h, showNotificationBadge]

theorem addMessage_pendingFeedback (w : ChatWidget) (text : String) (sender : Sender)
    (metadata : Metadata) (now : Nat) :
    (addMessage w text sender metadata now).pendingFeedback = w.pendingFeedback := by
  unfold addMessage
  by_cases h : w.isOpen = false <;> simp [h, showNotificationBadge]

theorem addMessage_timers (w : ChatWidget) (text : String) (sender : Sender)
    (metadata : Metadata) (now : Nat) :
    (addMessage w text sender metadata now).timers = w.timers := by
  unfold addMessage
  by_cases h : w.isOpen = false <;> simp [h, showNotificationBadge]

theorem addMessage_feedbackRequests (w : ChatWidget) (text : String) (sender : Sender)
    (metadata : Metadata) (now : Nat) :
    (addMessage w text sender metadata now).feedbackRequests = w.feedbackRequests := by
  unfold addMessage
  by_cases h : w.isOpen = false <;> simp [h, showNotificationBadge]

theorem addMessage_chatRequests (w : ChatWidget) (text : String) (sender : Sender)
    (metadata : Metadata) (now : Nat) :
    (addMessage w text sender metadata now).chatRequests = w.chatRequests ∧
    (addMessage w text sender metadata now).inFlightChat = w.inFlightChat := by
  unfold addMessage
  by_cases h : w.isOpen = false <;> simp [h, showNotificationBadge]

theorem addMessage_currentLanguage (w : ChatWidget) (text : String) (sender : Sender)
    (metadata : Metadata) (now : Nat) :
    (addMessage w text sender metadata now).currentLanguage = w.currentLanguage := by
  unfold addMessage
  by_cases h : w.isOpen = false <;> simp [h, showNotificationBadge]

theorem sendMessageResume_ok (w : ChatWidget) (status : Nat) (r : ChatResponse) (now : Nat) :
    sendMessageResume w (ChatOutcome.responded true status (some r)) now =
      setSendButtonState
        (if r.confidence < lowConfidenceThreshold then
          { addMessage (hideTypingIndicator w) r.response Sender.bot
              { confidence := some r.confidence, category := some r.category,
                messageId := some now } now with
            timers := (addMessage (hideTypingIndicator w) r.response Sender.bot
              { confidence := some r.confidence, category := some r.category,
                messageId := some now } now).timers ++ [feedbackTimer] }
        else
          addMessage (hideTypingIndicator w) r.response Sender.bot
            { confidence := some r.confidence, category := some r.category,
              messageId := some now } now) true := by
  simp [sendMessageResume, callChatAPIResult]

theorem sendMessageResume_error (w : ChatWidget) (outcome : ChatOutcome) (now : Nat) (e : String)
    (h : callChatAPIResult outcome = Except.error e) :
    sendMessageResume w outcome now =
      setSendButtonState
        (addMessage (hideTypingIndicator { w with console := w.console ++ ["Chat API error:"] })
          (errorMessageText w.currentLanguage) Sender.bot { isError := true } now) true := by
  simp [sendMessageResume, h, hideTypingIndicator]

theorem sendMessageResume_transcript (w : ChatWidget) (outcome : ChatOutcome) (now : Nat) :
    (sendMessageResume w outcome now).transcript = w.transcript ++
      [match callChatAPIResult outcome with
       | Except.ok response => answerBotMessage response now
       | Except.error _ => errorBotMessage w.currentLanguage now] := by
  cases hr : callChatAPIResult outcome with
  | error e =>
    rw [sendMessageResume_error w outcome now e hr]
    simp [setSendButtonState, addMessage_transcript, hideTypingIndicator, errorBotMessage]
  | ok r =>
    unfold sendMessageResume
    rw [hr]
    by_cases hc : r.confidence < lowConfidenceThreshold <;>
      simp [hc, setSendButtonState, addMessage_transcript, hideTypingIndicator, answerBotMessage]

/-! ## The claims -/

/-- C1, the code at the failing input.  In `busyWidget` one chat request is in
flight and the send button is disabled.  A click on the send button issues
nothing, but the Enter key in the input runs `sendMessage` all the same and
issues a second chat request: two requests are in flight at once. -/
theorem keypress_issues_second_concurrent_request :
    busyWidget.inFlightChat.length = 1 ∧ busyWidget.sendDisabled = true ∧
    (step busyWidget (Event.clickSend 2)).inFlightChat.length = 1 ∧
    (step busyWidget (Event.keypress "Enter" false 2)).inFlightChat.length = 2 ∧
    (step busyWidget (Event.keypress "Enter" false 2)).inFlightChat.map
      (fun request => request.message) = ["hi", "again"] := by
  decide

/-- C2.  When the trimmed input is not empty, the synchronous part of
`sendMessage` appends exactly one entry, the user message, and leaves the chat
request in flight; whenever that request settles, with whatever outcome and in
whatever state the widget is by then, the continuation appends exactly one
entry, a bot message (the answer on success, the error message on failure). -/
theorem sendMessage_appends_one_user_then_one_bot (w : ChatWidget) (now : Nat)
    (h : jsTrim w.inputValue ≠ "") :
    (sendMessage w now).transcript = w.transcript ++ [userMessage (jsTrim w.inputValue) now] ∧
    (userMessage (jsTrim w.inputValue) now).sender = Sender.user ∧
    (sendMessage w now).inFlightChat = w.inFlightChat ++
      [{ message := jsTrim w.inputValue, language := w.currentLanguage.code,
         session_id := w.sessionId, user_id := w.userId }] ∧
    ∀ (v : ChatWidget) (outcome : ChatOutcome) (later : Nat),
      (sendMessageResume v outcome later).transcript = v.transcript ++
        [match callChatAPIResult outcome with
         | Except.ok response => answerBotMessage response later
         | Except.error _ => errorBotMessage v.currentLanguage later] ∧
      (match callChatAPIResult outcome with
       | Except.ok response => answerBotMessage response later
       | Except.error _ => errorBotMessage v.currentLanguage later).sender = Sender.bot := by
  refine ⟨?_, rfl, ?_, ?_⟩
  · simp [sendMessage, h, callChatAPI, showTypingIndicator, addMessage_transcript,
      setSendButtonState, userMessage]
  · simp [sendMessage, h, callChatAPI, showTypingIndicator, addMessage_chatRequests,
      addMessage_currentLanguage, setSendButtonState]
    unfold addMessage
    by_cases ho : w.isOpen = false <;> simp [ho, showNotificationBadge]
  · intro v outcome later
    refine ⟨sendMessageResume_transcript v outcome later, ?_⟩
    cases callChatAPIResult outcome <;> rfl

/-- Witness of C2: typing "hi" into `demoWidget`. -/
theorem sendMessage_appends_one_user_then_one_bot_witness :
    ({ demoWidget with inputValue := " hi " } : ChatWidget).transcript = [] ∧
    (sendMessage { demoWidget with inputValue := " hi " } 1).transcript = [userMessage "hi" 1] :=
  ⟨rfl, (sendMessage_appends_one_user_then_one_bot { demoWidget with inputValue := " hi " } 1
    (by decide)).1⟩

/-- C3.  When the input is empty or holds only white space, `sendMessage`
returns the state as it was: transcript, requests and send control unchanged.
The same holds for the two events that call it. -/
theorem sendMessage_blank_is_noop (w : ChatWidget) (now : Nat)
    (h : ∀ c ∈ w.inputValue.data, isJsWhiteSpace c = true) :
    sendMessage w now = w ∧
    (sendMessage w now).transcript = w.transcript ∧
    (sendMessage w now).chatRequests = w.chatRequests ∧
    (sendMessage w now).inFlightChat = w.inFlightChat ∧
    (sendMessage w now).sendDisabled = w.sendDisabled ∧
    (sendMessage w now).sendText = w.sendText ∧
    step w (Event.clickSend now) = w ∧
    step w (Event.keypress "Enter" false now) = w := by
  have h0 : sendMessage w now = w := by
    simp [sendMessage, jsTrim_of_all_white w.inputValue h]
  refine ⟨h0, ?_, ?_, ?_, ?_, ?_, ?_, ?_⟩ <;> simp [step, h0]

/-- Witness of C3: three blanks in the input of `demoWidget`. -/
theorem sendMessage_blank_is_noop_witness :
    sendMessage { demoWidget with inputValue := "   " } 1 =
      { demoWidget with inputValue := "   " } :=
  (sendMessage_blank_is_noop { demoWidget with inputValue := "   " } 1 (by decide)).1

/-- C4.  For a parsed answer, the continuation of `sendMessage` arms the
feedback timer (delay 1000, action `showFeedbackModal`) exactly when the
confidence is below the literal `0.7`, and arms nothing otherwise; with an
idle workflow the timer, when it fires, opens the modal with no type chosen.
Confidence `0.9` and the threshold itself arm nothing, `0.4` arms the timer. -/
theorem feedback_scheduled_iff_low_confidence (w : ChatWidget) (status : Nat)
    (r : ChatResponse) (now : Nat) :
    ((sendMessageResume w (ChatOutcome.responded true status (some r)) now).timers =
        w.timers ++ [feedbackTimer] ↔ r.confidence < lowConfidenceThreshold) ∧
    ((sendMessageResume w (ChatOutcome.responded true status (some r)) now).timers =
        w.timers ↔ ¬ r.confidence < lowConfidenceThreshold) ∧
    feedbackTimer.delay = 1000 ∧
    (step { w with timers := [feedbackTimer], pendingFeedback := none }
        (Event.timerFires 0)).pendingFeedback = some { sessionId := w.sessionId, type := none } ∧
    (sendMessageResume w (ChatOutcome.responded true status (some greetingResponse)) now).timers =
        w.timers ∧
    (sendMessageResume w (ChatOutcome.responded true status
        (some { r with confidence := lowConfidenceThreshold })) now).timers = w.timers ∧
    (sendMessageResume w (ChatOutcome.responded true status (some unknownResponse)) now).timers =
        w.timers ++ [feedbackTimer] := by
  have key : ∀ q : ChatResponse,
      (sendMessageResume w (ChatOutcome.responded true status (some q)) now).timers =
        if q.confidence < lowConfidenceThreshold then w.timers ++ [feedbackTimer]
        else w.timers := by
    intro q
    rw [sendMessageResume_ok]
    by_cases hc : q.confidence < lowConfidenceThreshold <;>
      simp [hc, setSendButtonState, addMessage_timers, hideTypingIndicator]
  have h09 : ¬ greetingResponse.confidence < lowConfidenceThreshold := by decide
  have h04 : unknownResponse.confidence < lowConfidenceThreshold := by decide
  refine ⟨?_, ?_, rfl, ?_, ?_, ?_, ?_⟩
  · rw [key r]
    by_cases hc : r.confidence < lowConfidenceThreshold <;> simp [hc]
  · rw [key r]
    by_cases hc : r.confidence < lowConfidenceThreshold <;> simp [hc]
  · simp [step, showFeedbackModal, feedbackTimer]
  · rw [key greetingResponse, if_neg h09]
  · rw [key]
    simp
  · rw [key unknownResponse, if_pos h04]

/-- C5.  When the chat request fails (the fetch rejects, or the response is
not `ok`), the last transcript entry after the continuation is the bot message
flagged `isError` whose text is the generic error string of the widget's
language at that moment (Arabic for `ar`, English otherwise); no timer is
armed and `pendingFeedback` is as it was. -/
theorem sendMessage_failure_appends_error (w : ChatWidget) (outcome : ChatOutcome) (now : Nat)
    (h : outcome = ChatOutcome.rejected ∨
      ∃ status body, outcome = ChatOutcome.responded false status body) :
    (sendMessageResume w outcome now).transcript.getLast? =
      some (errorBotMessage w.currentLanguage now) ∧
    (errorBotMessage w.currentLanguage now).sender = Sender.bot ∧
    (errorBotMessage w.currentLanguage now).metadata.isError = true ∧
    (errorBotMessage w.currentLanguage now).text =
      (if w.currentLanguage = Language.ar then "عذراً، حدث خطأ. يرجى المحاولة مرة أخرى."
       else "Sorry, there was an error. Please try again.") ∧
    (sendMessageResume w outcome now).timers = w.timers ∧
    (sendMessageResume w outcome now).pendingFeedback = w.pendingFeedback := by
  have he : ∃ e, callChatAPIResult outcome = Except.error e := by
    rcases h with h | ⟨status, body, h⟩ <;> subst h <;> exact ⟨_, rfl⟩
  obtain ⟨e, he⟩ := he
  refine ⟨?_, rfl, rfl, ?_, ?_, ?_⟩
  · rw [sendMessageResume_transcript, he]
    simp
  · cases w.currentLanguage <;> simp [errorBotMessage, errorMessageText]
  · rw [sendMessageResume_error w outcome now e he]
    simp [setSendButtonState, addMessage_timers, hideTypingIndicator]
  · rw [sendMessageResume_error w outcome now e he]
    simp [setSendButtonState, addMessage_pendingFeedback, hideTypingIndicator]

/-- Witness of C5: the fetch rejects while `busyWidget` waits. -/
theorem sendMessage_failure_appends_error_witness :
    (sendMessageResume busyWidget ChatOutcome.rejected 7).transcript.getLast? =
      some (errorBotMessage Language.en 7) :=
  (sendMessage_failure_appends_error busyWidget ChatOutcome.rejected 7 (Or.inl rfl)).1

/-- C6, the code at the failing input.  Opening a closed widget hides the
badge and sets its text to "1", not to zero; after closing again, the first
message appended while closed reads that "1" as the count so far and shows
an unread count of "2". -/
theorem badge_shows_two_after_open_close (w : ChatWidget) (text : String) (sender : Sender)
    (metadata : Metadata) (now : Nat) (h : w.isOpen = false) :
    (toggleChat w).isOpen = true ∧
    (toggleChat w).badgeText = "1" ∧
    (toggleChat (toggleChat w)).isOpen = false ∧
    (addMessage (toggleChat (toggleChat w)) text sender metadata now).badgeText = "2" := by
  have hp : jsParseInt "1" = some 1 := by decide
  simp [toggleChat, h, hideNotificationBadge, addMessage, showNotificationBadge, hp]
  decide

/-- Witness of C6: `demoWidget` opened, closed, then a user message. -/
theorem badge_shows_two_after_open_close_witness :
    demoWidget.isOpen = false ∧
    (addMessage (toggleChat (toggleChat demoWidget)) "hi" Sender.user {} 3).badgeText = "2" :=
  ⟨rfl, (badge_shows_two_after_open_close demoWidget "hi" Sender.user {} 3 rfl).2.2.2⟩

theorem submitFeedbackResume_eq (w : ChatWidget) (outcome : FeedbackOutcome) (now : Nat) :
    submitFeedbackResume w outcome now =
      addMessage (hideFeedbackModal (sendFeedbackResume w outcome).1)
        (thankYouText w.currentLanguage) Sender.bot { isSystem := true } now := by
  cases outcome <;> simp [submitFeedbackResume, sendFeedbackResume, hideFeedbackModal]

theorem submitFeedbackResume_pendingFeedback (w : ChatWidget) (outcome : FeedbackOutcome)
    (now : Nat) : (submitFeedbackResume w outcome now).pendingFeedback = none := by
  rw [submitFeedbackResume_eq, addMessage_pendingFeedback]
  rfl

theorem submitFeedbackResume_transcript (w : ChatWidget) (outcome : FeedbackOutcome)
    (now : Nat) :
    (submitFeedbackResume w outcome now).transcript =
      w.transcript ++ [thankYouBotMessage w.currentLanguage now] := by
  rw [submitFeedbackResume_eq, addMessage_transcript]
  cases outcome <;> simp [hideFeedbackModal, sendFeedbackResume, thankYouBotMessage]

theorem submitFeedback_of_type (w : ChatWidget) (pending : PendingFeedback) (t : String)
    (hp : w.pendingFeedback = some pending) (ht : pending.type = some t) (hne : t ≠ "") :
    submitFeedback w =
      sendFeedback w t (some (jsTrim w.feedbackComment)) FeedbackCaller.submitFeedback := by
  simp [submitFeedback, hp, ht, hne]

/-- C7 as stated fails: in `awaitingSelectionWidget` the modal is open with no
type chosen, and a click on the submit button changes nothing: the workflow
stays in AwaitingSelection and no feedback request is in flight. -/
theorem submitFeedback_keeps_awaitingSelection :
    awaitingSelectionWidget.pendingFeedback =
      some { sessionId := "session_1000_abc", type := none } ∧
    (step awaitingSelectionWidget Event.clickFeedbackSubmit).pendingFeedback =
      some { sessionId := "session_1000_abc", type := none } ∧
    (step awaitingSelectionWidget Event.clickFeedbackSubmit).inFlightFeedback = [] := by
  decide

/-- C7, amended.  From every non-Idle state the skip button and a click on the
modal backdrop return the workflow to Idle.  `submitFeedback` returns it to
Idle from TypeSelected (a non-empty type): it leaves one feedback request in
flight, and when a request awaited by `submitFeedback` settles, with any
outcome and in any state, `pendingFeedback` is absent afterwards.  From
AwaitingSelection `submitFeedback` leaves the state as it is. -/
theorem feedback_workflow_back_to_idle (w : ChatWidget) (pending : PendingFeedback)
    (h : w.pendingFeedback = some pending) :
    (step w Event.clickFeedbackSkip).pendingFeedback = none ∧
    (step w (Event.clickModal "feedback-modal")).pendingFeedback = none ∧
    (∀ t : String, pending.type = some t → t ≠ "" →
      (step w Event.clickFeedbackSubmit).inFlightFeedback = w.inFlightFeedback ++
        [({ session_id := w.sessionId, feedback_type := t,
            comment := some (jsTrim w.feedbackComment) }, FeedbackCaller.submitFeedback)] ∧
      ∀ (v : ChatWidget) (index : Nat) (request : FeedbackRequest) (outcome : FeedbackOutcome)
        (now : Nat),
        v.inFlightFeedback.get? index = some (request, FeedbackCaller.submitFeedback) →
        (step v (Event.feedbackSettles index outcome now)).pendingFeedback = none) ∧
    (pending.type = none → step w Event.clickFeedbackSubmit = w) := by
  refine ⟨rfl, rfl, ?_, ?_⟩
  · intro t ht hne
    refine ⟨?_, ?_⟩
    · simp [step, submitFeedback_of_type w pending t h ht hne, sendFeedback]
    · intro v index request outcome now hv
      simp only [step, hv]
      exact submitFeedbackResume_pendingFeedback _ outcome now
  · intro ht
    simp [step, submitFeedback, h, ht]

/-- Witness of C7, amended: `typeSelectedWidget`, where "like" is chosen. -/
theorem feedback_workflow_back_to_idle_witness :
    typeSelectedWidget.pendingFeedback =
      some { sessionId := "session_1000_abc", type := some "like" } ∧
    (step typeSelectedWidget Event.clickFeedbackSkip).pendingFeedback = none :=
  ⟨by decide, (feedback_workflow_back_to_idle typeSelectedWidget
    { sessionId := "session_1000_abc", type := some "like" } (by decide)).1⟩

/-- C8, the code on the failure path.  When the feedback fetch rejects,
`sendFeedback` logs the error and its promise is fulfilled all the same, so the
continuation of `submitFeedback` appends the thank-you message exactly as on
success; the same happens for a response that is not `ok`. -/
theorem thank_you_appended_when_feedback_fails (w : ChatWidget) (status : Nat) (now : Nat) :
    (sendFeedbackResume w FeedbackOutcome.rejected).2 = Except.ok () ∧
    (submitFeedbackResume w FeedbackOutcome.rejected now).transcript =
      w.transcript ++ [thankYouBotMessage w.currentLanguage now] ∧
    (submitFeedbackResume w FeedbackOutcome.rejected now).console =
      w.console ++ ["Feedback API error:"] ∧
    (submitFeedbackResume w (FeedbackOutcome.responded false status) now).transcript =
      w.transcript ++ [thankYouBotMessage w.currentLanguage now] ∧
    (submitFeedbackResume w (FeedbackOutcome.responded true status) now).transcript =
      w.transcript ++ [thankYouBotMessage w.currentLanguage now] := by
  refine ⟨rfl, submitFeedbackResume_transcript _ _ _, ?_, submitFeedbackResume_transcript _ _ _,
    submitFeedbackResume_transcript _ _ _⟩
  rw [submitFeedbackResume_eq]
  unfold addMessage
  by_cases ho : w.isOpen = false <;>
    simp [ho, hideFeedbackModal, sendFeedbackResume, showNotificationBadge]

/-- C9.  With a pending feedback whose type is set (non-empty),
`submitFeedback` issues exactly one feedback request, carrying the session id,
the chosen type and the trimmed comment; when that request settles, whether the
fetch rejected or responded, the continuation issues no further request and
`pendingFeedback` is absent afterwards. -/
theorem submitFeedback_one_request_then_cleared (w : ChatWidget) (pending : PendingFeedback)
    (t : String) (hp : w.pendingFeedback = some pending) (ht : pending.type = some t)
    (hne : t ≠ "") :
    (submitFeedback w).feedbackRequests = w.feedbackRequests ++
      [{ session_id := w.sessionId, feedback_type := t,
         comment := some (jsTrim w.feedbackComment) }] ∧
    (submitFeedback w).inFlightFeedback = w.inFlightFeedback ++
      [({ session_id := w.sessionId, feedback_type := t,
          comment := some (jsTrim w.feedbackComment) }, FeedbackCaller.submitFeedback)] ∧
    ∀ (v : ChatWidget) (outcome : FeedbackOutcome) (now : Nat),
      (submitFeedbackResume v outcome now).pendingFeedback = none ∧
      (submitFeedbackResume v outcome now).feedbackRequests = v.feedbackRequests := by
  rw [submitFeedback_of_type w pending t hp ht hne]
  refine ⟨rfl, rfl, ?_⟩
  intro v outcome now
  refine ⟨submitFeedbackResume_pendingFeedback v outcome now, ?_⟩
  rw [submitFeedbackResume_eq, addMessage_feedbackRequests]
  cases outcome <;> rfl

/-- Witness of C9: submitting in `typeSelectedWidget`. -/
theorem submitFeedback_one_request_then_cleared_witness :
    (submitFeedback typeSelectedWidget).feedbackRequests =
      [{ session_id := "session_1000_abc", feedback_type := "like", comment := some "" }] :=
  (submitFeedback_one_request_then_cleared typeSelectedWidget
    { sessionId := "session_1000_abc", type := some "like" } "like"
    (by decide) rfl (by decide)).1.trans (by decide)

/-- C10.  With no pending feedback, or with a pending feedback that has no
type, `submitFeedback` returns the state as it was: no feedback request is
issued, `pendingFeedback` and the transcript are unchanged. -/
theorem submitFeedback_without_type_is_noop (w : ChatWidget)
    (h : w.pendingFeedback = none ∨
      ∃ pending, w.pendingFeedback = some pending ∧ pending.type = none) :
    submitFeedback w = w ∧
    (submitFeedback w).feedbackRequests = w.feedbackRequests ∧
    (submitFeedback w).inFlightFeedback = w.inFlightFeedback ∧
    (submitFeedback w).pendingFeedback = w.pendingFeedback ∧
    (submitFeedback w).transcript = w.transcript := by
  have h0 : submitFeedback w = w := by
    rcases h with h | ⟨pending, h, ht⟩
    · simp [submitFeedback, h]
    · simp [submitFeedback, h, ht]
  simp [h0]

/-- Witness of C10: submitting in `demoWidget` (Idle). -/
theorem submitFeedback_without_type_is_noop_witness :
    submitFeedback demoWidget = demoWidget :=
  (submitFeedback_without_type_is_noop demoWidget (Or.inl rfl)).1

/-! ## Language display -/

theorem addMessage_display (w : ChatWidget) (text : String) (sender : Sender)
    (metadata : Metadata) (now : Nat) :
    (addMessage w text sender metadata now).currentLanguage = w.currentLanguage ∧
    (addMessage w text sender metadata now).placeholder = w.placeholder ∧
    (addMessage w text sender metadata now).direction = w.direction ∧
    (addMessage w text sender metadata now).welcomeText = w.welcomeText := by
  unfold addMessage
  by_cases h : w.isOpen = false <;> simp [h, showNotificationBadge]

theorem selectFeedback_shape (w : ChatWidget) (pending : PendingFeedback) (t : Option String)
    (hp : w.pendingFeedback = some pending) :
    ∃ (btns : List FeedbackBtn) (ms : List Message),
      selectFeedback w t =
        { w with pendingFeedback := some { sessionId := pending.sessionId, type := t },
                 feedbackBtns := btns, transcript := ms } := by
  simp only [selectFeedback, hp]
  split
  · split
    · exact ⟨_, _, rfl⟩
    · split <;> exact ⟨_, _, rfl⟩
  · split
    · exact ⟨_, _, rfl⟩
    · split <;> exact ⟨_, _, rfl⟩

theorem selectFeedback_display (w : ChatWidget) (t : Option String) :
    (selectFeedback w t).currentLanguage = w.currentLanguage ∧
    (selectFeedback w t).placeholder = w.placeholder ∧
    (selectFeedback w t).direction = w.direction ∧
    (selectFeedback w t).welcomeText = w.welcomeText := by
  cases hp : w.pendingFeedback with
  | none => simp [selectFeedback, hp]
  | some pending =>
    obtain ⟨btns, ms, h⟩ := selectFeedback_shape w pending t hp
    simp [h]

theorem sendMessage_display (w : ChatWidget) (now : Nat) :
    (sendMessage w now).currentLanguage = w.currentLanguage ∧
    (sendMessage w now).placeholder = w.placeholder ∧
    (sendMessage w now).direction = w.direction ∧
    (sendMessage w now).welcomeText = w.welcomeText := by
  unfold sendMessage
  by_cases h : jsTrim w.inputValue = ""
  · simp [h]
  · simp only [h, if_false, callChatAPI, showTypingIndicator]
    have := addMessage_display (setSendButtonState { w with inputValue := "" } false)
      (jsTrim w.inputValue) Sender.user {} now
    simpa [setSendButtonState] using this

theorem sendMessageResume_display (w : ChatWidget) (outcome : ChatOutcome) (now : Nat) :
    (sendMessageResume w outcome now).currentLanguage = w.currentLanguage ∧
    (sendMessageResume w outcome now).placeholder = w.placeholder ∧
    (sendMessageResume w outcome now).direction = w.direction ∧
    (sendMessageResume w outcome now).welcomeText = w.welcomeText := by
  cases hr : callChatAPIResult outcome with
  | error e =>
    rw [sendMessageResume_error w outcome now e hr]
    simpa [setSendButtonState, hideTypingIndicator] using
      addMessage_display (hideTypingIndicator { w with console := w.console ++ ["Chat API error:"] })
        (errorMessageText w.currentLanguage) Sender.bot { isError := true } now
  | ok r =>
    unfold sendMessageResume
    rw [hr]
    have := addMessage_display (hideTypingIndicator w) r.response Sender.bot
      { confidence := some r.confidence, category := some r.category, messageId := some now } now
    by_cases hc : r.confidence < lowConfidenceThreshold <;>
      simpa [hc, setSendButtonState, hideTypingIndicator] using this

theorem submitFeedback_display (w : ChatWidget) :
    (submitFeedback w).currentLanguage = w.currentLanguage ∧
    (submitFeedback w).placeholder = w.placeholder ∧
    (submitFeedback w).direction = w.direction ∧
    (submitFeedback w).welcomeText = w.welcomeText := by
  unfold submitFeedback
  repeat' split
  all_goals simp [sendFeedback]

theorem submitFeedbackResume_display (w : ChatWidget) (outcome : FeedbackOutcome) (now : Nat) :
    (submitFeedbackResume w outcome now).currentLanguage = w.currentLanguage ∧
    (submitFeedbackResume w outcome now).placeholder = w.placeholder ∧
    (submitFeedbackResume w outcome now).direction = w.direction ∧
    (submitFeedbackResume w outcome now).welcomeText = w.welcomeText := by
  rw [submitFeedbackResume_eq]
  have := addMessage_display (hideFeedbackModal (sendFeedbackResume w outcome).1)
    (thankYouText w.currentLanguage) Sender.bot { isSystem := true } now
  cases outcome <;> simpa [hideFeedbackModal, sendFeedbackResume] using this

theorem handleInlineFeedback_display (w : ChatWidget) (index : Nat) (button : InlineButton) :
    (handleInlineFeedback w index button).currentLanguage = w.currentLanguage ∧
    (handleInlineFeedback w index button).placeholder = w.placeholder ∧
    (handleInlineFeedback w index button).direction = w.direction ∧
    (handleInlineFeedback w index button).welcomeText = w.welcomeText := by
  unfold handleInlineFeedback
  repeat' split
  all_goals simp [sendFeedback]

theorem step_display (w : ChatWidget) (e : Event) (h : e ≠ Event.clickLanguage) :
    (step w e).currentLanguage = w.currentLanguage ∧
    (step w e).placeholder = w.placeholder ∧
    (step w e).direction = w.direction ∧
    (step w e).welcomeText = w.welcomeText := by
  cases e with
  | clickLanguage => exact absurd rfl h
  | clickToggle => simp only [step, toggleChat]; split <;> simp [hideNotificationBadge]
  | clickMinimize => simp only [step, toggleChat]; split <;> simp [hideNotificationBadge]
  | clickSend now =>
    simp only [step]
    split
    · simp
    · exact sendMessage_display w now
  | keypress key shiftKey now =>
    simp only [step]
    split
    · exact sendMessage_display w now
    · simp
  | editInput value => simp [step]
  | editComment value => simp [step]
  | clickFeedbackBtn d => exact selectFeedback_display w d
  | clickFeedbackSubmit => exact submitFeedback_display w
  | clickFeedbackSkip => simp [step, hideFeedbackModal]
  | clickModal targetId => simp only [step]; split <;> simp [hideFeedbackModal]
  | clickInline index button => exact handleInlineFeedback_display w index button
  | timerFires index =>
    simp only [step]
    split
    · simp
    · split <;> simp [showFeedbackModal]
  | chatSettles index outcome now =>
    simp only [step]
    split
    · simp
    · exact sendMessageResume_display _ outcome now
  | feedbackSettles index outcome now =>
    simp only [step]
    split
    · simp
    · split
      · exact submitFeedbackResume_display _ outcome now
      · cases outcome <;> simp [sendFeedbackResume]

theorem toggleLanguage_twice (w : ChatWidget) :
    (toggleLanguage (toggleLanguage w)).currentLanguage = w.currentLanguage ∧
    (toggleLanguage (toggleLanguage w)).placeholder = placeholderText w.currentLanguage ∧
    (toggleLanguage (toggleLanguage w)).direction = directionText w.currentLanguage ∧
    (toggleLanguage (toggleLanguage w)).welcomeText = welcomeMessageText w.currentLanguage := by
  cases hl : w.currentLanguage <;>
    simp [toggleLanguage, updateLanguageDisplay, updateWelcomeMessage, hl, placeholderText,
      directionText]

theorem toggleLanguage_localized (w : ChatWidget) :
    languageDisplayed (toggleLanguage w) = true ∧ welcomeLocalized (toggleLanguage w) = true := by
  cases hl : w.currentLanguage <;>
    simp [toggleLanguage, updateLanguageDisplay, updateWelcomeMessage, hl, placeholderText,
      directionText, languageDisplayed, welcomeLocalized]

theorem step_languageDisplayed (w : ChatWidget) (e : Event) (h : languageDisplayed w = true) :
    languageDisplayed (step w e) = true := by
  by_cases he : e = Event.clickLanguage
  · subst he
    exact (toggleLanguage_localized w).1
  · obtain ⟨h1, h2, h3, _⟩ := step_display w e he
    simpa [languageDisplayed, h1, h2, h3] using h

theorem step_welcomeLocalized (w : ChatWidget) (e : Event) (h : welcomeLocalized w = true) :
    welcomeLocalized (step w e) = true := by
  by_cases he : e = Event.clickLanguage
  · subst he
    exact (toggleLanguage_localized w).2
  · obtain ⟨h1, _, _, h4⟩ := step_display w e he
    simpa [welcomeLocalized, h1, h4] using h

theorem run_languageDisplayed (events : List Event) (w : ChatWidget)
    (h : languageDisplayed w = true) : languageDisplayed (run w events) = true := by
  induction events generalizing w with
  | nil => exact h
  | cons e rest ih => exact ih (step w e) (step_languageDisplayed w e h)

theorem run_welcomeLocalized (events : List Event) (w : ChatWidget)
    (h : welcomeLocalized w = true) : welcomeLocalized (run w events) = true := by
  induction events generalizing w with
  | nil => exact h
  | cons e rest ih => exact ih (step w e) (step_welcomeLocalized w e h)

theorem new_languageDisplayed (page : Page) (now : Nat) (suffix₁ suffix₂ : String) :
    languageDisplayed (ChatWidget.new page now suffix₁ suffix₂) = true := by
  simp [ChatWidget.new, updateLanguageDisplay, languageDisplayed, placeholderText, directionText]

theorem run_append (w : ChatWidget) (before after : List Event) :
    run w (before ++ after) = run (run w before) after := by
  simp [run, List.foldl_append]

/-- C11 as stated fails: `demoWidget` is built on a page whose welcome element
reads "Hello"; after two calls of `toggleLanguage` the language is `en` again
but the welcome element holds the built-in English welcome string. -/
theorem toggleLanguage_twice_changes_welcome :
    demoWidget.welcomeText = "Hello" ∧
    (toggleLanguage (toggleLanguage demoWidget)).currentLanguage = demoWidget.currentLanguage ∧
    (toggleLanguage (toggleLanguage demoWidget)).welcomeText =
      welcomeMessageText Language.en ∧
    (toggleLanguage (toggleLanguage demoWidget)).welcomeText ≠ demoWidget.welcomeText := by
  decide

/-- C11, amended.  In every state reached from the constructor, two calls of
`toggleLanguage` restore the language, the input placeholder and the text
direction, and leave the built-in welcome string of that language in the
welcome element.  The welcome text is thereby restored in every state reached
after a first click on the language toggle. -/
theorem toggleLanguage_twice_restores (page : Page) (now : Nat) (suffix₁ suffix₂ : String)
    (before after : List Event) :
    (toggleLanguage (toggleLanguage
        (run (ChatWidget.new page now suffix₁ suffix₂) before))).currentLanguage =
      (run (ChatWidget.new page now suffix₁ suffix₂) before).currentLanguage ∧
    (toggleLanguage (toggleLanguage
        (run (ChatWidget.new page now suffix₁ suffix₂) before))).placeholder =
      (run (ChatWidget.new page now suffix₁ suffix₂) before).placeholder ∧
    (toggleLanguage (toggleLanguage
        (run (ChatWidget.new page now suffix₁ suffix₂) before))).direction =
      (run (ChatWidget.new page now suffix₁ suffix₂) before).direction ∧
    (toggleLanguage (toggleLanguage
        (run (ChatWidget.new page now suffix₁ suffix₂) before))).welcomeText =
      welcomeMessageText (run (ChatWidget.new page now suffix₁ suffix₂) before).currentLanguage ∧
    (toggleLanguage (toggleLanguage
        (run (ChatWidget.new page now suffix₁ suffix₂)
          (before ++ Event.clickLanguage :: after)))).welcomeText =
      (run (ChatWidget.new page now suffix₁ suffix₂)
        (before ++ Event.clickLanguage :: after)).welcomeText := by
  have hd := run_languageDisplayed before _ (new_languageDisplayed page now suffix₁ suffix₂)
  simp only [languageDisplayed, Bool.and_eq_true, decide_eq_true_eq] at hd
  obtain ⟨h1, h2, h3, h4⟩ :=
    toggleLanguage_twice (run (ChatWidget.new page now suffix₁ suffix₂) before)
  refine ⟨h1, h2.trans hd.1.symm, h3.trans hd.2.symm, h4, ?_⟩
  have hw : welcomeLocalized (run (ChatWidget.new page now suffix₁ suffix₂)
      (before ++ Event.clickLanguage :: after)) = true := by
    rw [run_append]
    exact run_welcomeLocalized after _
      (toggleLanguage_localized (run (ChatWidget.new page now suffix₁ suffix₂) before)).2
  simp only [welcomeLocalized, decide_eq_true_eq] at hw
  exact (toggleLanguage_twice _).2.2.2.trans hw.symm

/-! ## Inline feedback -/

theorem handleInlineFeedback_of_actions (w : ChatWidget) (index : Nat) (button : InlineButton)
    (m : Message) (a : InlineActions) (hm : w.transcript.get? index = some m)
    (ha : m.actions = some a) :
    handleInlineFeedback w index button =
      sendFeedback
        { w with transcript :=
            w.transcript.set index { m with actions := some (markInline a button) } }
        button.dataFeedback none FeedbackCaller.handleInlineFeedback := by
  simp only [handleInlineFeedback, hm, ha]

/-- C12.  For a transcript entry that carries the inline buttons, a click on
its dislike button followed by a click on its like button leaves like marked
selected and dislike not (after the first click it is the other way round), no
other entry is touched, and each of the two calls issues one feedback request
whose comment is null; the session-level `pendingFeedback` is not touched. -/
theorem inline_dislike_then_like (w : ChatWidget) (index : Nat) (m : Message)
    (a : InlineActions) (hm : w.transcript.get? index = some m) (ha : m.actions = some a) :
    (handleInlineFeedback w index InlineButton.dislike).transcript.get? index =
      some { m with actions := some { a with likeSelected := false, dislikeSelected := true } } ∧
    (handleInlineFeedback (handleInlineFeedback w index InlineButton.dislike) index
        InlineButton.like).transcript.get? index =
      some { m with actions := some { a with likeSelected := true, dislikeSelected := false } } ∧
    (∀ other : Nat, other ≠ index →
      (handleInlineFeedback (handleInlineFeedback w index InlineButton.dislike) index
        InlineButton.like).transcript.get? other = w.transcript.get? other) ∧
    (handleInlineFeedback (handleInlineFeedback w index InlineButton.dislike) index
        InlineButton.like).feedbackRequests =
      w.feedbackRequests ++
        [{ session_id := w.sessionId, feedback_type := "dislike", comment := none },
         { session_id := w.sessionId, feedback_type := "like", comment := none }] ∧
    (handleInlineFeedback (handleInlineFeedback w index InlineButton.dislike) index
        InlineButton.like).pendingFeedback = w.pendingFeedback := by
  have hlt : index < w.transcript.length := by
    rw [List.get?_eq_getElem?] at hm
    exact (List.getElem?_eq_some_iff.mp hm).1
  have h1 := handleInlineFeedback_of_actions w index InlineButton.dislike m a hm ha
  have hm1 : (handleInlineFeedback w index InlineButton.dislike).transcript.get? index =
      some { m with actions := some (markInline a InlineButton.dislike) } := by
    rw [h1]
    simp [sendFeedback, hlt]
  have h2 := handleInlineFeedback_of_actions (handleInlineFeedback w index InlineButton.dislike)
    index InlineButton.like _ (markInline a InlineButton.dislike) hm1 rfl
  refine ⟨?_, ?_, ?_, ?_, ?_⟩
  · rw [hm1]
    rfl
  · rw [h2, h1]
    simp [sendFeedback, hlt, markInline]
  · intro other hne
    rw [h2, h1]
    simp [sendFeedback, List.getElem?_set, Ne.symm hne]
  · rw [h2, h1]
    simp [sendFeedback, InlineButton.dataFeedback]
  · rw [h2, h1]
    simp [sendFeedback]

/-- Witness of C12: the answer at entry 1 of `answeredWidget`. -/
theorem inline_dislike_then_like_witness :
    ((handleInlineFeedback (handleInlineFeedback answeredWidget 1 InlineButton.dislike) 1
        InlineButton.like).transcript.get? 1).map (fun entry => entry.actions) =
      some (some { messageId := some 5, likeSelected := true, dislikeSelected := false }) := by
  have h := (inline_dislike_then_like answeredWidget 1 (answerBotMessage greetingResponse 5)
    { messageId := some 5 } (by decide) rfl).2.1
  rw [h]
  rfl

/-! ## Selecting a feedback type -/

theorem selectedTypes_cleared (btns : List FeedbackBtn) :
    selectedTypes (btns.map (fun (btn : FeedbackBtn) => { btn with selected := false })) = [] := by
  induction btns with
  | nil => rfl
  | cons b rest _ => simp [selectedTypes]

theorem selectFirstBtn_cleared (t : String) (btns r : List FeedbackBtn)
    (h : selectFirstBtn t
      (btns.map (fun (btn : FeedbackBtn) => { btn with selected := false })) = some r) :
    selectedTypes r = [t] := by
  induction btns generalizing r with
  | nil => simp [selectFirstBtn] at h
  | cons b rest ih =>
    simp only [List.map_cons, selectFirstBtn] at h
    split at h
    · rename_i hb
      have hr := Option.some.inj h
      subst hr
      have hc := selectedTypes_cleared rest
      simp only [selectedTypes] at hc ⊢
      simp [hc, hb]
    · cases hrest : selectFirstBtn t
          (rest.map (fun (btn : FeedbackBtn) => { btn with selected := false })) with
      | none => simp [hrest] at h
      | some r0 =>
        simp only [hrest, Option.map_some'] at h
        have hr := Option.some.inj h
        subst hr
        have h0 := ih r0 hrest
        simp only [selectedTypes] at h0 ⊢
        simpa using h0

theorem selectFeedback_selectedTypes (w : ChatWidget) (pending : PendingFeedback)
    (t : Option String) (hp : w.pendingFeedback = some pending) :
    selectedTypes (selectFeedback w t).feedbackBtns = [t.getD "undefined"] ∨
    selectedTypes (selectFeedback w t).feedbackBtns = [] := by
  simp only [selectFeedback, hp]
  split
  · split
    · rename_i btns hb
      exact Or.inl (selectFirstBtn_cleared _ _ _ hb)
    · split <;> exact Or.inr (selectedTypes_cleared _)
  · split
    · exact Or.inr (selectedTypes_cleared _)
    · split
      · rename_i btns hb
        exact Or.inl (selectFirstBtn_cleared _ _ _ hb)
      · exact Or.inr (selectedTypes_cleared _)

/-- C13.  With a pending feedback, `selectFeedback(t1)` followed by
`selectFeedback(t2)` leaves `t2` as the recorded type, marks at most one modal
button and only one that carries `t2`, and issues no request (the chat and
feedback requests, issued and in flight, are as before).  With no pending
feedback `selectFeedback` returns the state as it was. -/
theorem selectFeedback_latest_type_wins (w : ChatWidget) (pending : PendingFeedback)
    (t1 t2 : String) (hp : w.pendingFeedback = some pending) :
    (selectFeedback (selectFeedback w (some t1)) (some t2)).pendingFeedback =
      some { sessionId := pending.sessionId, type := some t2 } ∧
    (selectedTypes (selectFeedback (selectFeedback w (some t1)) (some t2)).feedbackBtns = [t2] ∨
      selectedTypes (selectFeedback (selectFeedback w (some t1)) (some t2)).feedbackBtns = []) ∧
    (selectFeedback (selectFeedback w (some t1)) (some t2)).feedbackRequests =
      w.feedbackRequests ∧
    (selectFeedback (selectFeedback w (some t1)) (some t2)).inFlightFeedback =
      w.inFlightFeedback ∧
    (selectFeedback (selectFeedback w (some t1)) (some t2)).chatRequests = w.chatRequests ∧
    (selectFeedback (selectFeedback w (some t1)) (some t2)).inFlightChat = w.inFlightChat ∧
    (∀ (v : ChatWidget) (t : Option String), v.pendingFeedback = none → selectFeedback v t = v) := by
  obtain ⟨btns1, ms1, h1⟩ := selectFeedback_shape w pending (some t1) hp
  have hp1 : (selectFeedback w (some t1)).pendingFeedback =
      some { sessionId := pending.sessionId, type := some t1 } := by rw [h1]
  obtain ⟨btns2, ms2, h2⟩ := selectFeedback_shape (selectFeedback w (some t1))
    { sessionId := pending.sessionId, type := some t1 } (some t2) hp1
  refine ⟨?_, ?_, ?_, ?_, ?_, ?_, ?_⟩
  · rw [h2]
  · exact selectFeedback_selectedTypes _ _ (some t2) hp1
  · rw [h2, h1]
  · rw [h2, h1]
  · rw [h2, h1]
  · rw [h2, h1]
  · intro v t hv
    simp [selectFeedback, hv]

/-- Witness of C13: "like" then "dislike" in `awaitingSelectionWidget`. -/
theorem selectFeedback_latest_type_wins_witness :
    (selectFeedback (selectFeedback awaitingSelectionWidget (some "like"))
      (some "dislike")).pendingFeedback =
      some { sessionId := "session_1000_abc", type := some "dislike" } :=
  (selectFeedback_latest_type_wins awaitingSelectionWidget
    { sessionId := "session_1000_abc", type := none } "like" "dislike" (by decide)).1

/-! ## The send control -/

theorem addMessage_sendDisabled (w : ChatWidget) (text : String) (sender : Sender)
    (metadata : Metadata) (now : Nat) :
    (addMessage w text sender metadata now).sendDisabled = w.sendDisabled := by
  unfold addMessage
  by_cases h : w.isOpen = false <;> simp [h, showNotificationBadge]

theorem sendMessage_sendDisabled (w : ChatWidget) (now : Nat) (h : jsTrim w.inputValue ≠ "") :
    (sendMessage w now).sendDisabled = true := by
  simp [sendMessage, h, callChatAPI, showTypingIndicator, addMessage_sendDisabled,
    setSendButtonState]

theorem sendMessageResume_sendDisabled (w : ChatWidget) (outcome : ChatOutcome) (now : Nat) :
    (sendMessageResume w outcome now).sendDisabled = false := by
  simp [sendMessageResume, setSendButtonState]

theorem step_keeps_sendDisabled (w : ChatWidget) (e : Event)
    (he : ∀ index outcome now, e ≠ Event.chatSettles index outcome now)
    (h : w.sendDisabled = true) : (step w e).sendDisabled = true := by
  cases e with
  | clickLanguage =>
    simp only [step, toggleLanguage, updateWelcomeMessage, updateLanguageDisplay]
    split <;> simpa using h
  | clickToggle => simp only [step, toggleChat]; split <;> simpa [hideNotificationBadge] using h
  | clickMinimize => simp only [step, toggleChat]; split <;> simpa [hideNotificationBadge] using h
  | clickSend now => simp [step, h]
  | keypress key shiftKey now =>
    simp only [step]
    split
    · by_cases hb : jsTrim w.inputValue = ""
      · simpa [sendMessage, hb] using h
      · exact sendMessage_sendDisabled w now hb
    · exact h
  | editInput value => simpa [step] using h
  | editComment value => simpa [step] using h
  | clickFeedbackBtn d =>
    simp only [step]
    cases hp : w.pendingFeedback with
    | none => simpa [selectFeedback, hp] using h
    | some pending =>
      obtain ⟨btns, ms, hs⟩ := selectFeedback_shape w pending d hp
      rw [hs]
      exact h
  | clickFeedbackSubmit =>
    simp only [step, submitFeedback]
    repeat' split
    all_goals simpa [sendFeedback] using h
  | clickFeedbackSkip => simpa [step, hideFeedbackModal] using h
  | clickModal targetId => simp only [step]; split <;> simpa [hideFeedbackModal] using h
  | clickInline index button =>
    simp only [step, handleInlineFeedback]
    repeat' split
    all_goals simpa [sendFeedback] using h
  | timerFires index =>
    simp only [step]
    split
    · exact h
    · split <;> simpa [showFeedbackModal] using h
  | chatSettles index outcome now => exact absurd rfl (he index outcome now)
  | feedbackSettles index outcome now =>
    simp only [step]
    split
    · exact h
    · split
      · rw [submitFeedbackResume_eq, addMessage_sendDisabled]
        cases outcome <;> simpa [hideFeedbackModal, sendFeedbackResume] using h
      · cases outcome <;> simpa [sendFeedbackResume] using h

/-- C14, the code at the failing input.  The continuation of `sendMessage`
enables the send control for every outcome, and the call disables it at its
start.  But in `overlappedWidget` the second call (started with Enter while
the first was in flight) is still unresolved, and the send control is already
enabled again, because the first call has settled. -/
theorem send_control_enabled_while_call_unresolved :
    (∀ (v : ChatWidget) (outcome : ChatOutcome) (now : Nat),
      (sendMessageResume v outcome now).sendDisabled = false) ∧
    (∀ (v : ChatWidget) (now : Nat), jsTrim v.inputValue ≠ "" →
      (sendMessage v now).sendDisabled = true) ∧
    (step busyWidget (Event.keypress "Enter" false 2)).sendDisabled = true ∧
    (step busyWidget (Event.keypress "Enter" false 2)).inFlightChat.map
      (fun request => request.message) = ["hi", "again"] ∧
    overlappedWidget.inFlightChat.map (fun request => request.message) = ["again"] ∧
    overlappedWidget.sendDisabled = false :=
  ⟨sendMessageResume_sendDisabled, sendMessage_sendDisabled, by decide, by decide, by decide,
    by decide⟩

/-! ## The persisted user id -/

theorem generated_id_ne_empty (now : Nat) (suffix : String) :
    "anon_" ++ toString now ++ "_" ++ suffix ≠ "" := by
  intro h
  have hl := congrArg String.length h
  simp only [String.length_append] at hl
  have h5 : "anon_".length = 5 := by decide
  have h0 : "".length = 0 := by decide
  omega

theorem getUserId_idempotent (storage : Option String) (now later : Nat)
    (suffix suffix' : String) :
    getUserId (getUserId storage now suffix).2 later suffix' = getUserId storage now suffix := by
  have hg := generated_id_ne_empty now suffix
  cases storage with
  | none => simp [getUserId, hg]
  | some stored =>
    by_cases hs : stored = ""
    · simp [getUserId, hs, hg]
    · simp [getUserId, hs]

/-- C15 as stated fails: when the entry exists and holds the empty string,
`getUserId` does not return that value and does not leave storage unchanged:
it generates an id and writes it. -/
theorem getUserId_replaces_empty_value :
    getUserId (some "") 5 "r" = ("anon_5_r", some "anon_5_r") ∧
    (getUserId (some "") 5 "r").1 ≠ "" ∧
    (getUserId (some "") 5 "r").2 ≠ some "" := by
  decide

/-- C15, amended.  When local storage holds a non-empty value under the key,
`getUserId` returns that value and leaves storage unchanged.  When the key is
absent (or holds the empty string) it generates an id, writes it and returns
it.  In every case a second `getUserId` on the storage left by the first
returns the same id and leaves that storage unchanged, and so does the
constructor of a later page load. -/
theorem getUserId_reuses_persisted_id (stored : String) (now later : Nat)
    (suffix suffix' : String) (h : stored ≠ "") :
    getUserId (some stored) now suffix = (stored, some stored) ∧
    getUserId none now suffix =
      ("anon_" ++ toString now ++ "_" ++ suffix, some ("anon_" ++ toString now ++ "_" ++ suffix)) ∧
    getUserId (some "") now suffix = getUserId none now suffix ∧
    (∀ storage : Option String,
      getUserId (getUserId storage now suffix).2 later suffix' = getUserId storage now suffix) ∧
    (∀ (page : Page) (s₁ s₂ : String),
      (ChatWidget.new { page with storage := (ChatWidget.new page now suffix s₁).storage }
          later suffix' s₂).userId = (ChatWidget.new page now suffix s₁).userId ∧
      (ChatWidget.new { page with storage := (ChatWidget.new page now suffix s₁).storage }
          later suffix' s₂).storage = (ChatWidget.new page now suffix s₁).storage) := by
  refine ⟨?_, rfl, rfl, ?_, ?_⟩
  · simp [getUserId, h]
  · intro storage
    exact getUserId_idempotent storage now later suffix suffix'
  · intro page s₁ s₂
    have hi := getUserId_idempotent page.storage now later s₁ s₂
    simp only [ChatWidget.new, updateLanguageDisplay]
    simp [hi]

/-- Witness of C15, amended: the stored id "anon_1_k". -/
theorem getUserId_reuses_persisted_id_witness :
    getUserId (some "anon_1_k") 2 "r" = ("anon_1_k", some "anon_1_k") :=
  (getUserId_reuses_persisted_id "anon_1_k" 2 3 "r" "q" (by decide)).1

end ChatWidget

end ChatWidgetModel
